import Mathlib

/-!
Shallow embedding of the metadata caching and staleness-refresh subsystem of
the ibm-envizi-emissions-api-excel-addin repository.

The embedded modules:
  - metadata-utils (VALID_API_NAMES, API_AREA_MAPPING, REFRESH_CONFIG,
    getSheetMetadata, isSheetDataStale, refreshSheetIfStale, validateApiName)
  - api-types-loader (API_COLUMN_MAP, fetchAllApiTypes)
  - area-loader (AREA_COLUMN_MAP, fetchAllAreaData)
  - area-handler (getAlpha3CodesForApi, getAreaDataForCountry,
    handleCountryFunction, handleStateProvinceFunction, handlePowerGridFunction)
  - functions (fetchUnits, handleUnitsFunction)
  - types-handler (applyDataValidation option-list derivation)

Host-spreadsheet reads and remote-service responses are passed in explicitly
as values (the host model and the remote API are external collaborators);
effectful handler bodies are embedded as functions returning a result
together with the list of observable events they perform, in program order.
-/

/-- JS value of an Excel metadata cell as observed by the add-in: a string,
a number, or an empty cell. -/
inductive CellVal where
  | str (s : String)
  | num (n : Int)
  | empty
deriving DecidableEq, Repr

/-- JS string coercion applied by parseInt to a cell value (an empty Excel
cell reads back as the empty string). -/
def jsToString : CellVal → String
  | CellVal.str s => s
  | CellVal.num n => toString n
  | CellVal.empty => ""

/-- Model of the JS toLowerCase on the ASCII names used here: lower-case
each character. -/
def jsToLower (s : String) : String := String.mk (s.data.map Char.toLower)

/-- Model of the JS toUpperCase on the ASCII codes used here: upper-case
each character. -/
def jsToUpper (s : String) : String := String.mk (s.data.map Char.toUpper)

/-- Model of the JS String trim: drop whitespace from both ends. -/
def jsTrim (s : String) : String :=
  String.mk (((s.data.dropWhile Char.isWhitespace).reverse.dropWhile
    Char.isWhitespace).reverse)

/-- Longest leading run of decimal digits of a character list. -/
def digitsPrefixOf : List Char → List Char
  | [] => []
  | c :: cs => if c.isDigit then c :: digitsPrefixOf cs else []

/-- Decimal value of a digit list, accumulator style. -/
def digitsVal : List Char → Nat → Nat
  | [], acc => acc
  | c :: cs, acc => digitsVal cs (acc * 10 + (c.toNat - 48))

/-- Model of the JS builtin parseInt in base 10 as used on the metadata
timestamp cell: skip leading whitespace, optional sign, then the longest
run of decimal digits; no digits gives NaN, modelled as none.  (The JS
hex-prefix autodetection is not modelled; timestamp cells are written as
decimal strings by setSheetMetadata.) -/
def parseIntJS (s : String) : Option Int :=
  let cs := s.toList.dropWhile (fun c => c.isWhitespace)
  let signAndRest : Int × List Char :=
    match cs with
    | '-' :: t => (-1, t)
    | '+' :: t => (1, t)
    | t => (1, t)
  let ds := digitsPrefixOf signAndRest.2
  if ds.isEmpty then none
  else some (signAndRest.1 * (digitsVal ds 0 : Int))

/-- The first two cells of row 0 of a hidden data sheet, as read by
getSheetMetadata. -/
structure MetadataRow where
  cell0 : CellVal
  cell1 : CellVal
deriving DecidableEq, Repr

/-- SheetMetadata from metadata-utils; timestamp none models the JS NaN
that parseInt yields on a non-numeric cell. -/
structure SheetMetadata where
  timestamp : Option Int
deriving DecidableEq, Repr

/-- getSheetMetadata from metadata-utils: the host read either fails (the
catch branch returns null) or yields the metadata row; a row whose first
cell is not the literal string METADATA yields null, otherwise the second
cell is parsed with parseInt. -/
def getSheetMetadata : Except Unit MetadataRow → Option SheetMetadata
  | Except.error _ => none
  | Except.ok row =>
    if row.cell0 = CellVal.str "METADATA" then
      some { timestamp := parseIntJS (jsToString row.cell1) }
    else
      none

/-- REFRESH_CONFIG.REFRESH_INTERVAL_MS from metadata-utils: 2 days. -/
def REFRESH_INTERVAL_MS : Int := 2 * 24 * 60 * 60 * 1000

/-- isSheetDataStale from metadata-utils, with Date.now() passed in as now.
A null metadata gives stale; otherwise stale is age strictly greater than
the refresh interval.  When the stored timestamp is NaN (none) the JS
comparison NaN greater-than interval is false, so the data is judged not
stale. -/
def isSheetDataStale (now : Int) (readResult : Except Unit MetadataRow) : Bool :=
  match getSheetMetadata readResult with
  | none => true
  | some m =>
    match m.timestamp with
    | none => false
    | some ts => now - ts > REFRESH_INTERVAL_MS

/-- VALID_API_NAMES from metadata-utils. -/
def VALID_API_NAMES : List String :=
  ["location", "mobile", "fugitive", "stationary", "calculation",
   "transportationanddistribution", "factor"]

/-- Error codes of the CustomFunctions taxonomy used by the subsystem. -/
inductive ErrCode where
  | invalidValue
  | notAvailable
deriving DecidableEq, Repr

/-- A CustomFunctions.Error: a code plus a message. -/
structure CFError where
  code : ErrCode
  message : String
deriving DecidableEq, Repr

/-- validateApiName from metadata-utils: lower-case and trim the input,
accept it when it is one of VALID_API_NAMES, otherwise throw invalidValue
listing the valid options. -/
def validateApiName (apiName : String) : Except CFError String :=
  let normalizedApiName := jsTrim (jsToLower apiName)
  if VALID_API_NAMES.contains normalizedApiName then
    Except.ok normalizedApiName
  else
    Except.error
      { code := ErrCode.invalidValue,
        message := "Invalid API name. Valid options: " ++
          String.intercalate ", " VALID_API_NAMES }

/-- API_AREA_MAPPING from metadata-utils: each logical category's
representative group for area data. -/
def API_AREA_MAPPING : List (String × String) :=
  [("calculation", "calculation"),
   ("location", "calculation"),
   ("factor", "calculation"),
   ("mobile", "mobile"),
   ("stationary", "mobile"),
   ("fugitive", "mobile"),
   ("transportationanddistribution", "mobile")]

/-- mapApiNameForAreaData from area-handler: look the name up in
API_AREA_MAPPING, falling back to the name itself. -/
def mapApiNameForAreaData (apiName : String) : String :=
  match API_AREA_MAPPING.lookup apiName with
  | some rep => rep
  | none => apiName

/-- AREA_COLUMN_MAP from area-loader. -/
structure AreaColumnMap where
  apiName : Nat
  alpha3 : Nat
  countryName : Nat
  stateProvince : Nat
  powerGrid : Nat

/-- AREA_COLUMN_MAP values: columns A through E. -/
def AREA_COLUMN_MAP : AreaColumnMap :=
  { apiName := 0, alpha3 := 1, countryName := 2, stateProvince := 3, powerGrid := 4 }

/-- getAlpha3CodesForApi from area-handler, over the used-range values of
the area data sheet (cells after JS toString; a missing cell reads as the
empty string, which for the non-empty query strings used here behaves as
the JS undefined does).  Index 0 of the used range (the metadata row) is
skipped; each later row whose api-name column, lower-cased, equals the
representative group and whose alpha3 column is non-empty contributes its
alpha3 value, in order, with no deduplication. -/
def getAlpha3CodesForApi (values : List (List String)) (apiName : String) : List String :=
  let queryApiName := mapApiNameForAreaData apiName
  (values.drop 1).foldl
    (fun acc row =>
      let rowApiName := jsToLower (row.getD AREA_COLUMN_MAP.apiName "")
      let alpha3 := row.getD AREA_COLUMN_MAP.alpha3 ""
      if rowApiName = queryApiName ∧ alpha3 ≠ "" then acc ++ [alpha3] else acc)
    []

/-- getAreaDataForCountry from area-handler: find the first row past index 0
matching the representative group and the alpha3 code; split its cell at
columnIndex on commas, trim each piece, drop empties; an empty cell or no
matching row yields the empty list. -/
def getAreaDataForCountry (values : List (List String)) (apiName alpha3 : String)
    (columnIndex : Nat) : List String :=
  let queryApiName := mapApiNameForAreaData apiName
  match (values.drop 1).find?
      (fun row =>
        (jsToLower (row.getD AREA_COLUMN_MAP.apiName "") == queryApiName) &&
        (row.getD AREA_COLUMN_MAP.alpha3 "" == alpha3)) with
  | some row =>
    let dataString := row.getD columnIndex ""
    if dataString ≠ "" then
      ((dataString.splitOn ",").map String.trim).filter (fun item => item ≠ "")
    else []
  | none => []

/-- API_COLUMN_MAP from api-types-loader: fixed 0-based column per
category; factor shares the calculation column. -/
def API_COLUMN_MAP : List (String × Nat) :=
  [("location", 0),
   ("mobile", 1),
   ("fugitive", 2),
   ("stationary", 3),
   ("calculation", 4),
   ("transportationanddistribution", 5),
   ("factor", 4)]

/-- The option-list derivation of applyDataValidation from types-handler.
The host's two range reads on the selected column are abstracted as
columnRead: for a column index it returns the used-range row count of that
column and the values of the sheet rows 2 through rowCount of the column
(empty or null cells as empty strings).  An unmapped name or a row count
of at most 1 raises; otherwise the non-empty cells are the derived list. -/
def applyDataValidationValues (columnRead : Nat → Nat × List String)
    (apiName : String) : Except String (List String) :=
  match API_COLUMN_MAP.lookup apiName with
  | none => Except.error ("Unknown API name: " ++ apiName)
  | some columnIndex =>
    let rowCount := (columnRead columnIndex).1
    if rowCount ≤ 1 then
      Except.error ("No types found for API: " ++ apiName)
    else
      Except.ok ((columnRead columnIndex).2.filter (fun v => v ≠ ""))

/-- The six API_TYPES_CONFIGS names from metadata-utils, in column order. -/
def API_TYPES_CONFIG_NAMES : List String :=
  ["Location", "Mobile", "Fugitive", "Stationary", "Calculation",
   "TransportationAndDistribution"]

/-- The two API_AREA_CONFIGS names from metadata-utils. -/
def API_AREA_CONFIG_NAMES : List String := ["calculation", "mobile"]

/-- Outcome of one remote getTypes call: a rejection with a message, a
response without a well-formed types array (none), or a types list. -/
def TypesFetchOutcome := Except String (Option (List String))

/-- Per-config resolution inside fetchAllApiTypes: the catch turns a
rejection into an empty list, and a response without a types field
resolves to an empty list via the or-else default. -/
def resolveTypesFetch : Except String (Option (List String)) → List String
  | Except.error _ => []
  | Except.ok none => []
  | Except.ok (some ts) => ts

/-- fetchAllApiTypes from api-types-loader: ensureClient first (fails when
not logged in), then one getTypes per config, each individually caught, the
results collected into the name-to-types map.  The map is the association
list in config order. -/
def fetchAllApiTypes (loggedIn : Bool)
    (responses : String → Except String (Option (List String))) :
    Except CFError (List (String × List String)) :=
  if loggedIn then
    Except.ok (API_TYPES_CONFIG_NAMES.map (fun n => (n, resolveTypesFetch (responses n))))
  else
    Except.error
      { code := ErrCode.notAvailable, message := "Enter your credentials in the task pane." }

/-- One location entry of a getArea response, as parsed by area-loader. -/
structure LocationData where
  alpha3 : String
  countryName : String
  stateProvinces : Option (List String)
  powerGrids : Option (List String)
deriving DecidableEq, Repr

/-- Per-config resolution inside fetchAllAreaData: a rejection or a
response without a well-formed locations array resolves to an empty
locations list (with a diagnostic logged), otherwise the locations. -/
def resolveAreaFetch : Except String (Option (List LocationData)) → List LocationData
  | Except.error _ => []
  | Except.ok none => []
  | Except.ok (some ls) => ls

/-- fetchAllAreaData from area-loader: one getArea per representative
group, each individually caught, collected into the name-to-locations map
in config order.  The routine itself never raises. -/
def fetchAllAreaData
    (responses : String → Except String (Option (List LocationData))) :
    List (String × List LocationData) :=
  API_AREA_CONFIG_NAMES.map (fun n => (n, resolveAreaFetch (responses n)))

/-- The per-category columns written by writeApiTypesToSheet: in fixed
config order, each column holds the fetched types of its category (the
map lookup defaulting to the empty list). -/
def typesSheetColumns (m : List (String × List String)) : List (List String) :=
  API_TYPES_CONFIG_NAMES.map (fun n => (m.lookup n).getD [])

/-- Observable events a handler performs, in program order. -/
inductive Event where
  | ensureClientCall
  | remoteGetUnits (api ty : String)
  | populateSheet (sheetName : String)
  | readSheet (sheetName : String)
  | applyValidation (addr : String) (values : List String)
deriving DecidableEq, Repr

/-- A thrown JS error: either a CustomFunctions.Error or a plain Error
carrying just a message. -/
inductive JsError where
  | cf (e : CFError)
  | plain (msg : String)
deriving DecidableEq, Repr

/-- handleCustomFunctionError from metadata-utils: rethrow a
CustomFunctions.Error as-is, wrap anything else into notAvailable with the
handler's default prefix (an empty message reads as Unknown error). -/
def handleCustomFunctionError (e : JsError) (defaultMessage : String) : CFError :=
  match e with
  | JsError.cf err => err
  | JsError.plain msg =>
    { code := ErrCode.notAvailable,
      message := defaultMessage ++ ": " ++ (if msg = "" then "Unknown error" else msg) }

/-- The error ensureClient raises (via getClientConfig in client.ts) when
no credentials are available. -/
def ensureClientError : CFError :=
  { code := ErrCode.notAvailable, message := "Enter your credentials in the task pane." }

/-- The seven keys of the API_CLASS_MAP in functions.ts (factor included,
backed by the Factor class). -/
def FUNCTIONS_API_CLASS_NAMES : List String :=
  ["location", "mobile", "fugitive", "stationary", "calculation",
   "transportationanddistribution", "factor"]

/-- Environment of a units lookup: whether a session can be established and
the remote getUnits outcome per (api, type) pair — a rejection message, a
response without a well-formed units array (none), or the units list. -/
structure UnitsEnv where
  loggedIn : Bool
  unitsResponse : String → String → Except String (Option (List String))

/-- fetchUnits from functions.ts: resolve the SDK class (throwing on an
unknown name), call getUnits, reject a response without a units array and
an empty units list, and wrap every failure message with the fetch
prefix.  Returns the result together with the remote calls performed. -/
def fetchUnits (env : UnitsEnv) (apiName ty : String) :
    Except String (List String) × List Event :=
  if FUNCTIONS_API_CLASS_NAMES.contains apiName then
    match env.unitsResponse apiName ty with
    | Except.error msg =>
      (Except.error ("Failed to fetch units: " ++ (if msg = "" then "Unknown error" else msg)),
       [Event.remoteGetUnits apiName ty])
    | Except.ok none =>
      (Except.error ("Failed to fetch units: Invalid response format from " ++ apiName ++ " API"),
       [Event.remoteGetUnits apiName ty])
    | Except.ok (some units) =>
      if units.isEmpty then
        (Except.error ("Failed to fetch units: No units found for type: " ++ ty),
         [Event.remoteGetUnits apiName ty])
      else
        (Except.ok units, [Event.remoteGetUnits apiName ty])
  else
    (Except.error ("Failed to fetch units: Unknown API name: " ++ apiName), [])

/-- handleUnitsFunction from functions.ts: validate the type parameter
before anything else, ensure the client, validate the API name, fetch the
units on demand and attach the dropdown to the invoking cell; any
non-CustomFunctions failure is wrapped with the units-validation prefix. -/
def handleUnitsFunction (env : UnitsEnv) (apiName ty addr : String) :
    Except CFError String × List Event :=
  if jsTrim ty = "" then
    (Except.error
      { code := ErrCode.invalidValue,
        message := "Type parameter is required and must be a non-empty string" }, [])
  else if ¬ env.loggedIn then
    (Except.error ensureClientError, [Event.ensureClientCall])
  else
    match validateApiName apiName with
    | Except.error e => (Except.error e, [Event.ensureClientCall])
    | Except.ok normalizedApiName =>
      match fetchUnits env normalizedApiName (jsTrim ty) with
      | (Except.error msg, evs) =>
        (Except.error (handleCustomFunctionError (JsError.plain msg)
            "Failed to set up units validation"),
         Event.ensureClientCall :: evs)
      | (Except.ok units, evs) =>
        (Except.ok "", Event.ensureClientCall :: evs ++ [Event.applyValidation addr units])

/-- AREA_DATA_SHEET_NAME from area-loader. -/
def AREA_DATA_SHEET_NAME : String := "API_Area_Data"

/-- The hidden area data sheet: its metadata row (row 0, cells A and B)
and its full used-range values (row 0 metadata, row 1 header, data rows
after that), cells after JS toString. -/
structure AreaSheet where
  metadataRow : MetadataRow
  values : List (List String)
deriving Repr

/-- Workbook state relevant to the area handlers: the hidden area sheet,
absent or present. -/
abbrev AreaState := Option AreaSheet

/-- Environment of an area handler: whether a session can be established,
and the outcome of a loadAndPopulateAreaData run — an error message when
the write to the host fails, otherwise the freshly fetched and written
sheet (the per-group remote failures are already absorbed inside
fetchAllAreaData, so fetch outcomes never make the populate run fail). -/
structure AreaEnv where
  loggedIn : Bool
  populateResult : Except String AreaSheet

/-- Result of a cache-management step: the workbook state it leaves, its
outcome, and the events it performed. -/
structure StepResult (α : Type) where
  st : AreaState
  res : Except JsError α
  evs : List Event

/-- loadAndPopulateAreaData from area-loader, as invoked on the current
workbook: fetch all area data, delete any pre-existing sheet and write the
fresh one with its metadata; a host write failure deletes the old sheet
first and then rethrows. -/
def loadAndPopulateAreaData (env : AreaEnv) : StepResult Unit :=
  match env.populateResult with
  | Except.error msg =>
    { st := none, res := Except.error (JsError.plain msg),
      evs := [Event.populateSheet AREA_DATA_SHEET_NAME] }
  | Except.ok fresh =>
    { st := some fresh, res := Except.ok (),
      evs := [Event.populateSheet AREA_DATA_SHEET_NAME] }

/-- refreshSheetIfStale from metadata-utils, instantiated as the handlers
invoke it: on the area data sheet with loadAndPopulateAreaData as the
recreate function.  A missing sheet is left alone; an existing stale sheet
is deleted and recreated; a fresh sheet is untouched.  The boolean tells
whether a refresh happened. -/
def refreshSheetIfStale (env : AreaEnv) (now : Int) (st : AreaState) : StepResult Bool :=
  match st with
  | none =>
    { st := none, res := Except.ok false, evs := [Event.readSheet AREA_DATA_SHEET_NAME] }
  | some sh =>
    if isSheetDataStale now (Except.ok sh.metadataRow) then
      let popped := loadAndPopulateAreaData env
      { st := popped.st,
        res := popped.res.map (fun _ => true),
        evs := [Event.readSheet AREA_DATA_SHEET_NAME,
                Event.readSheet AREA_DATA_SHEET_NAME] ++ popped.evs }
    else
      { st := some sh, res := Except.ok false,
        evs := [Event.readSheet AREA_DATA_SHEET_NAME,
                Event.readSheet AREA_DATA_SHEET_NAME] }

/-- ensureAreaDataSheet from area-handler: create the sheet via
loadAndPopulateAreaData only when it does not exist. -/
def ensureAreaDataSheet (env : AreaEnv) (st : AreaState) : StepResult Unit :=
  match st with
  | none =>
    let popped := loadAndPopulateAreaData env
    { popped with evs := Event.readSheet AREA_DATA_SHEET_NAME :: popped.evs }
  | some sh =>
    { st := some sh, res := Except.ok (), evs := [Event.readSheet AREA_DATA_SHEET_NAME] }

/-- The shared tail of the three area handlers after the option list has
been derived: empty list raises the given error, otherwise the dropdown is
attached to the invoking cell and the empty string returned. -/
def finishAreaHandler (st : AreaState) (options : List String) (emptyErr : JsError)
    (addr : String) (prefixEvs : List Event) (defaultMessage : String) :
    Except CFError String × AreaState × List Event :=
  if options.isEmpty then
    (Except.error (handleCustomFunctionError emptyErr defaultMessage), st, prefixEvs)
  else
    (Except.ok "", st, prefixEvs ++ [Event.applyValidation addr options])

/-- handleCountryFunction from area-handler: ensure the client, validate
the API name, refresh the sheet when stale, create it when absent, read
the alpha3 codes for the category's representative group, fail when none
are found, otherwise attach the dropdown; every failure is normalized via
handleCustomFunctionError with the country prefix. -/
def handleCountryFunction (env : AreaEnv) (now : Int) (st : AreaState)
    (apiName addr : String) : Except CFError String × AreaState × List Event :=
  let dflt := "Failed to set up country validation"
  if ¬ env.loggedIn then
    (Except.error (handleCustomFunctionError (JsError.cf ensureClientError) dflt),
     st, [Event.ensureClientCall])
  else
    match validateApiName apiName with
    | Except.error e =>
      (Except.error (handleCustomFunctionError (JsError.cf e) dflt),
       st, [Event.ensureClientCall])
    | Except.ok normalizedApiName =>
      let r := refreshSheetIfStale env now st
      match r.res with
      | Except.error e =>
        (Except.error (handleCustomFunctionError e dflt),
         r.st, Event.ensureClientCall :: r.evs)
      | Except.ok _ =>
        let e2 := ensureAreaDataSheet env r.st
        match e2.res with
        | Except.error e =>
          (Except.error (handleCustomFunctionError e dflt),
           e2.st, Event.ensureClientCall :: r.evs ++ e2.evs)
        | Except.ok _ =>
          match e2.st with
          | none =>
            (Except.error (handleCustomFunctionError (JsError.plain "ItemNotFound") dflt),
             none, Event.ensureClientCall :: r.evs ++ e2.evs ++
               [Event.readSheet AREA_DATA_SHEET_NAME])
          | some sh =>
            finishAreaHandler (some sh)
              (getAlpha3CodesForApi sh.values normalizedApiName)
              (JsError.plain ("No countries found for API: " ++ apiName))
              addr
              (Event.ensureClientCall :: r.evs ++ e2.evs ++
                [Event.readSheet AREA_DATA_SHEET_NAME])
              dflt

/-- Common body of handleStateProvinceFunction and handlePowerGridFunction
from area-handler (the two differ only in the column read, the
NotAvailable message, and the wrapping prefix): validate the country
parameter before the session check, ensure the client, validate the API
name, refresh or create the sheet, read the comma-separated column for the
(representative group, upper-cased country) pair, fail with NotAvailable
when empty, otherwise attach the dropdown. -/
def handleAreaColumnFunction (env : AreaEnv) (now : Int) (st : AreaState)
    (apiName country addr : String) (columnIndex : Nat)
    (emptyMsg : String → String) (dflt : String) :
    Except CFError String × AreaState × List Event :=
  if jsTrim country = "" then
    (Except.error
      { code := ErrCode.invalidValue,
        message := "Country parameter is required and must be a non-empty string" },
     st, [])
  else if ¬ env.loggedIn then
    (Except.error (handleCustomFunctionError (JsError.cf ensureClientError) dflt),
     st, [Event.ensureClientCall])
  else
    match validateApiName apiName with
    | Except.error e =>
      (Except.error (handleCustomFunctionError (JsError.cf e) dflt),
       st, [Event.ensureClientCall])
    | Except.ok normalizedApiName =>
      let r := refreshSheetIfStale env now st
      match r.res with
      | Except.error e =>
        (Except.error (handleCustomFunctionError e dflt),
         r.st, Event.ensureClientCall :: r.evs)
      | Except.ok _ =>
        let e2 := ensureAreaDataSheet env r.st
        match e2.res with
        | Except.error e =>
          (Except.error (handleCustomFunctionError e dflt),
           e2.st, Event.ensureClientCall :: r.evs ++ e2.evs)
        | Except.ok _ =>
          match e2.st with
          | none =>
            (Except.error (handleCustomFunctionError (JsError.plain "ItemNotFound") dflt),
             none, Event.ensureClientCall :: r.evs ++ e2.evs ++
               [Event.readSheet AREA_DATA_SHEET_NAME])
          | some sh =>
            finishAreaHandler (some sh)
              (getAreaDataForCountry sh.values normalizedApiName
                (jsToUpper (jsTrim country)) columnIndex)
              (JsError.cf { code := ErrCode.notAvailable, message := emptyMsg country })
              addr
              (Event.ensureClientCall :: r.evs ++ e2.evs ++
                [Event.readSheet AREA_DATA_SHEET_NAME])
              dflt

/-- handleStateProvinceFunction from area-handler. -/
def handleStateProvinceFunction (env : AreaEnv) (now : Int) (st : AreaState)
    (apiName country addr : String) : Except CFError String × AreaState × List Event :=
  handleAreaColumnFunction env now st apiName country addr
    AREA_COLUMN_MAP.stateProvince
    (fun c => "No stateProvince data available for " ++ c)
    "Failed to set up state/province validation"

/-- handlePowerGridFunction from area-handler. -/
def handlePowerGridFunction (env : AreaEnv) (now : Int) (st : AreaState)
    (apiName country addr : String) : Except CFError String × AreaState × List Event :=
  handleAreaColumnFunction env now st apiName country addr
    AREA_COLUMN_MAP.powerGrid
    (fun c => "No power grid data available for " ++ c)
    "Failed to set up power grid validation"

/-- C1: the claim says any dataset without a valid numeric writtenAt marker
is judged stale.  The code disagrees on one of the claim's three cases:
when the first cell is the METADATA literal but the second cell does not
parse as a number, parseInt yields NaN, the NaN age comparison is false,
and isSheetDataStale judges the dataset NOT stale — for every clock value.
(The other two cases, a non-METADATA first cell and an unreadable sheet,
do yield stale.) -/
theorem isSheetDataStale_nan_timestamp_not_stale (now : Int) :
    isSheetDataStale now
      (Except.ok { cell0 := CellVal.str "METADATA", cell1 := CellVal.str "abc" }) = false ∧
    isSheetDataStale now
      (Except.ok { cell0 := CellVal.str "other", cell1 := CellVal.str "abc" }) = true ∧
    isSheetDataStale now (Except.error ()) = true := by
  have h : parseIntJS "abc" = none := by decide
  refine ⟨?_, by simp [isSheetDataStale, getSheetMetadata], rfl⟩
  simp [isSheetDataStale, getSheetMetadata, jsToString, h]

/-- C2: for a dataset whose metadata row carries the METADATA marker and a
timestamp cell parsing to ts, isSheetDataStale is true exactly when the
age now - ts strictly exceeds the 2-day refresh interval; an age of
exactly 2 days is not stale. -/
theorem isSheetDataStale_age_threshold (now ts : Int) (row : MetadataRow)
    (h0 : row.cell0 = CellVal.str "METADATA")
    (h1 : parseIntJS (jsToString row.cell1) = some ts) :
    (isSheetDataStale now (Except.ok row) = true ↔ now - ts > 2 * 24 * 60 * 60 * 1000) ∧
    (now - ts = 2 * 24 * 60 * 60 * 1000 → isSheetDataStale now (Except.ok row) = false) := by
  unfold isSheetDataStale getSheetMetadata REFRESH_INTERVAL_MS
  simp [h0, h1]
  intro h
  omega

/-- C2 witness: a dataset written at time 0 checked at exactly the 2-day
mark is not stale. -/
theorem isSheetDataStale_age_threshold_witness :
    isSheetDataStale 172800000
      (Except.ok { cell0 := CellVal.str "METADATA", cell1 := CellVal.str "0" }) = false :=
  (isSheetDataStale_age_threshold 172800000 0
      { cell0 := CellVal.str "METADATA", cell1 := CellVal.str "0" }
      rfl (by decide)).2 (by decide)

/-- C3: the claim (and the function's own doc comment) says the COUNTRY
lookup returns the DISTINCT alpha-3 codes of the matching rows.  The code
performs no deduplication: on a sheet holding two mobile rows for the same
country, getAlpha3CodesForApi returns the code twice. -/
theorem getAlpha3CodesForApi_keeps_duplicates :
    getAlpha3CodesForApi
      [["METADATA", "172800000"],
       ["API Name", "Alpha3", "Country Name", "State/Province", "Power Grid"],
       ["mobile", "USA", "United States", "", ""],
       ["mobile", "USA", "United States", "", ""]] "mobile" = ["USA", "USA"] := by
  rfl

/-- C6: validateApiName returns the lower-cased, trimmed input whenever
that normal form is one of the seven valid category names, and otherwise
throws invalidValue with the message enumerating all seven names. -/
theorem validateApiName_spec (s : String) :
    validateApiName s =
      (if jsTrim (jsToLower s) ∈ VALID_API_NAMES then
        Except.ok (jsTrim (jsToLower s))
      else
        Except.error
          { code := ErrCode.invalidValue,
            message := "Invalid API name. Valid options: location, mobile, fugitive, stationary, calculation, transportationanddistribution, factor" }) := by
  unfold validateApiName
  by_cases h : jsTrim (jsToLower s) ∈ VALID_API_NAMES
  · rw [if_pos h, if_pos]
    exact List.elem_eq_true_of_mem h
  · rw [if_neg h, if_neg]
    · rfl
    · intro hc
      exact h (List.mem_of_elem_eq_true hc)

/-- C7: factor aliases calculation — the types column index assigned to
factor equals the one assigned to calculation, factor's representative
area group equals calculation's, and consequently every types-column read
and every area lookup behaves identically for the two names on every
sheet state. -/
theorem factor_aliases_calculation :
    API_COLUMN_MAP.lookup "factor" = API_COLUMN_MAP.lookup "calculation" ∧
    API_AREA_MAPPING.lookup "factor" = API_AREA_MAPPING.lookup "calculation" ∧
    (∀ (columnRead : Nat → Nat × List String) (xs : List String),
      applyDataValidationValues columnRead "factor" = Except.ok xs ↔
        applyDataValidationValues columnRead "calculation" = Except.ok xs) ∧
    (∀ values : List (List String),
      getAlpha3CodesForApi values "factor" = getAlpha3CodesForApi values "calculation") ∧
    (∀ (values : List (List String)) (alpha3 : String) (columnIndex : Nat),
      getAreaDataForCountry values "factor" alpha3 columnIndex =
        getAreaDataForCountry values "calculation" alpha3 columnIndex) := by
  have hmap : mapApiNameForAreaData "factor" = mapApiNameForAreaData "calculation" := by
    decide
  have hcol : API_COLUMN_MAP.lookup "factor" = API_COLUMN_MAP.lookup "calculation" := by
    decide
  refine ⟨hcol, by decide, ?_, ?_, ?_⟩
  · intro columnRead xs
    have h4 : API_COLUMN_MAP.lookup "factor" = some 4 := by decide
    have h4c : API_COLUMN_MAP.lookup "calculation" = some 4 := by decide
    unfold applyDataValidationValues
    rw [h4, h4c]
    by_cases hc : (columnRead 4).1 ≤ 1 <;> simp [hc]
  · intro values
    unfold getAlpha3CodesForApi
    rw [hmap]
  · intro values alpha3 columnIndex
    unfold getAreaDataForCountry
    rw [hmap]

/-- C5: population fetch routines isolate per-category failures: the types
routine (under a session) never raises, its map binds every failed or
malformed category to the empty list and every successful category to its
fetched types; the area routine does the same for the two representative
groups. -/
theorem populationFetch_isolates_failures
    (tys : String → Except String (Option (List String)))
    (ars : String → Except String (Option (List LocationData))) :
    ∃ m, fetchAllApiTypes true tys = Except.ok m ∧
      typesSheetColumns m = API_TYPES_CONFIG_NAMES.map (fun n => resolveTypesFetch (tys n)) ∧
      (∀ n msg, n ∈ API_TYPES_CONFIG_NAMES → tys n = Except.error msg →
        m.lookup n = some []) ∧
      (∀ n ts, n ∈ API_TYPES_CONFIG_NAMES → tys n = Except.ok (some ts) →
        m.lookup n = some ts) ∧
      (∀ n msg, n ∈ API_AREA_CONFIG_NAMES → ars n = Except.error msg →
        (fetchAllAreaData ars).lookup n = some []) ∧
      (∀ n ls, n ∈ API_AREA_CONFIG_NAMES → ars n = Except.ok (some ls) →
        (fetchAllAreaData ars).lookup n = some ls) := by
  refine ⟨_, rfl, ?_, ?_, ?_, ?_, ?_⟩
  · simp [typesSheetColumns, fetchAllApiTypes, API_TYPES_CONFIG_NAMES, List.lookup]
  · intro n msg hn h
    fin_cases hn <;>
      simp [fetchAllApiTypes, API_TYPES_CONFIG_NAMES, resolveTypesFetch, List.lookup, h]
  · intro n ts hn h
    fin_cases hn <;>
      simp [fetchAllApiTypes, API_TYPES_CONFIG_NAMES, resolveTypesFetch, List.lookup, h]
  · intro n msg hn h
    fin_cases hn <;>
      simp [fetchAllAreaData, API_AREA_CONFIG_NAMES, resolveAreaFetch, List.lookup, h]
  · intro n ls hn h
    fin_cases hn <;>
      simp [fetchAllAreaData, API_AREA_CONFIG_NAMES, resolveAreaFetch, List.lookup, h]

/-- A fetch environment in which the Mobile category fails and the five
remaining categories succeed. -/
def tysFiveOfSix : String → Except String (Option (List String)) :=
  fun n =>
    if n == "Mobile" then Except.error "network unreachable"
    else Except.ok (some [n ++ " type 1"])

/-- An area fetch environment in which the mobile group fails and
calculation succeeds. -/
def arsOneFails : String → Except String (Option (List LocationData)) :=
  fun n =>
    if n == "mobile" then Except.error "network unreachable"
    else
      Except.ok (some [{ alpha3 := "USA", countryName := "United States",
                         stateProvinces := none, powerGrids := none }])

/-- C5 witness: with Mobile failing among the six categories, population
does not raise, yields five populated columns and one empty column, and
the failed area group is recorded empty. -/
theorem populationFetch_isolates_failures_witness :
    ∃ m, fetchAllApiTypes true tysFiveOfSix = Except.ok m ∧
      typesSheetColumns m =
        [["Location type 1"], [], ["Fugitive type 1"], ["Stationary type 1"],
         ["Calculation type 1"], ["TransportationAndDistribution type 1"]] ∧
      m.lookup "Mobile" = some [] ∧
      (fetchAllAreaData arsOneFails).lookup "mobile" = some [] := by
  obtain ⟨m, hok, hcols, hfail, hsucc, hafail, hasucc⟩ :=
    populationFetch_isolates_failures tysFiveOfSix arsOneFails
  refine ⟨m, hok, ?_, ?_, ?_⟩
  · rw [hcols]
    simp [API_TYPES_CONFIG_NAMES, tysFiveOfSix, resolveTypesFetch]
  · exact hfail "Mobile" "network unreachable" (by decide) (by rfl)
  · exact hafail "mobile" "network unreachable" (by decide) (by rfl)

/-- Recognizer for population events. -/
def isPopulateEvent : Event → Bool
  | Event.populateSheet _ => true
  | _ => false

/-- Number of Population Routine invocations recorded in a trace. -/
def countPopulates (evs : List Event) : Nat := evs.countP isPopulateEvent

/-- The stale-refresh step performs at most one population, and when it
succeeds (so that the handler goes on to the create-if-absent step) the
two steps jointly still perform at most one population. -/
theorem refresh_then_ensure_populates_at_most_once (env : AreaEnv) (now : Int)
    (st : AreaState) :
    countPopulates (refreshSheetIfStale env now st).evs ≤ 1 ∧
    ((refreshSheetIfStale env now st).res.isOk = true →
      countPopulates ((refreshSheetIfStale env now st).evs ++
        (ensureAreaDataSheet env (refreshSheetIfStale env now st).st).evs) ≤ 1) := by
  cases st with
  | none =>
    cases hpr : env.populateResult <;>
      simp [refreshSheetIfStale, ensureAreaDataSheet, loadAndPopulateAreaData, hpr,
        countPopulates, isPopulateEvent, List.countP_cons, List.countP_append]
  | some sh =>
    by_cases hstale : isSheetDataStale now (Except.ok sh.metadataRow) <;>
      cases hpr : env.populateResult <;>
        simp [refreshSheetIfStale, ensureAreaDataSheet, loadAndPopulateAreaData, hpr,
          hstale, countPopulates, isPopulateEvent, List.countP_cons, List.countP_append,
          Except.map, Except.isOk, Except.toBool]

/-- The common state/province–power-grid handler body populates at most
once per call. -/
theorem handleAreaColumn_populates_at_most_once (env : AreaEnv) (now : Int)
    (st : AreaState) (apiName country addr : String) (columnIndex : Nat)
    (emptyMsg : String → String) (dflt : String) :
    countPopulates (handleAreaColumnFunction env now st apiName country addr
      columnIndex emptyMsg dflt).2.2 ≤ 1 := by
  obtain ⟨h1, h2⟩ := refresh_then_ensure_populates_at_most_once env now st
  simp only [countPopulates, List.countP_append] at h1 h2
  unfold handleAreaColumnFunction
  by_cases hcty : jsTrim country = ""
  · simp [hcty, countPopulates]
  · by_cases hl : env.loggedIn
    · cases hv : validateApiName apiName with
      | error e => simp [hcty, hl, hv, countPopulates, isPopulateEvent]
      | ok n =>
        simp only [hcty, hl, hv, if_false, if_true, not_true, not_false_iff, ite_not]
        cases hres : (refreshSheetIfStale env now st).res with
        | error e =>
          simp [hcty, hl, countPopulates, isPopulateEvent, List.countP_cons, h1]
        | ok u =>
          have h2' := h2 (by simp [hres, Except.isOk, Except.toBool])
          cases hens : (ensureAreaDataSheet env (refreshSheetIfStale env now st).st).res with
          | error e =>
            simp [hcty, hl, countPopulates, isPopulateEvent, List.countP_cons,
              List.countP_append]
            omega
          | ok v =>
            cases hst2 : (ensureAreaDataSheet env (refreshSheetIfStale env now st).st).st with
            | none =>
              simp [hcty, hl, countPopulates, isPopulateEvent, List.countP_cons,
                List.countP_append]
              omega
            | some sh =>
              unfold finishAreaHandler
              by_cases hemp : (getAreaDataForCountry sh.values n
                  (jsToUpper (jsTrim country)) columnIndex).isEmpty <;>
                simp [hcty, hl, hemp, countPopulates, isPopulateEvent, List.countP_cons,
                  List.countP_append] <;> omega
    · simp [hcty, hl, countPopulates, isPopulateEvent]

/-- The country handler populates at most once per call. -/
theorem handleCountry_populates_at_most_once (env : AreaEnv) (now : Int)
    (st : AreaState) (apiName addr : String) :
    countPopulates (handleCountryFunction env now st apiName addr).2.2 ≤ 1 := by
  obtain ⟨h1, h2⟩ := refresh_then_ensure_populates_at_most_once env now st
  simp only [countPopulates, List.countP_append] at h1 h2
  unfold handleCountryFunction
  by_cases hl : env.loggedIn
  · cases hv : validateApiName apiName with
    | error e => simp [hl, hv, countPopulates, isPopulateEvent]
    | ok n =>
      simp only [hl, hv, if_false, if_true, not_true, not_false_iff, ite_not]
      cases hres : (refreshSheetIfStale env now st).res with
      | error e =>
        simp [hl, countPopulates, isPopulateEvent, List.countP_cons, h1]
      | ok u =>
        have h2' := h2 (by simp [hres, Except.isOk, Except.toBool])
        cases hens : (ensureAreaDataSheet env (refreshSheetIfStale env now st).st).res with
        | error e =>
          simp [hl, countPopulates, isPopulateEvent, List.countP_cons, List.countP_append]
          omega
        | ok v =>
          cases hst2 : (ensureAreaDataSheet env (refreshSheetIfStale env now st).st).st with
          | none =>
            simp [hl, countPopulates, isPopulateEvent, List.countP_cons, List.countP_append]
            omega
          | some sh =>
            unfold finishAreaHandler
            by_cases hemp : (getAlpha3CodesForApi sh.values n).isEmpty <;>
              simp [hl, hemp, countPopulates, isPopulateEvent, List.countP_cons,
                List.countP_append] <;> omega
  · simp [hl, countPopulates, isPopulateEvent]

/-- C4: a single invocation of any cache-backed area lookup handler runs
the Population Routine at most once, for every initial cache state (sheet
absent, present and fresh, or present and stale) and every environment:
the stale-refresh path and the create-if-absent path are never both
taken in one call. -/
theorem cacheHandlers_populate_at_most_once (env : AreaEnv) (now : Int)
    (st : AreaState) (apiName country addr : String) :
    countPopulates (handleCountryFunction env now st apiName addr).2.2 ≤ 1 ∧
    countPopulates (handleStateProvinceFunction env now st apiName country addr).2.2 ≤ 1 ∧
    countPopulates (handlePowerGridFunction env now st apiName country addr).2.2 ≤ 1 :=
  ⟨handleCountry_populates_at_most_once env now st apiName addr,
   handleAreaColumn_populates_at_most_once env now st apiName country addr
     AREA_COLUMN_MAP.stateProvince
     (fun c => "No stateProvince data available for " ++ c)
     "Failed to set up state/province validation",
   handleAreaColumn_populates_at_most_once env now st apiName country addr
     AREA_COLUMN_MAP.powerGrid
     (fun c => "No power grid data available for " ++ c)
     "Failed to set up power grid validation"⟩

/-- Recognizer for Cache Store accesses (hidden-sheet reads or
populations). -/
def touchesSheetStore : Event → Bool
  | Event.populateSheet _ => true
  | Event.readSheet _ => true
  | _ => false

/-- Recognizer for remote getUnits calls. -/
def isRemoteUnitsCall : Event → Bool
  | Event.remoteGetUnits _ _ => true
  | _ => false

/-- A name accepted by validateApiName normalizes successfully. -/
theorem validateApiName_ok_of_mem (s : String)
    (h : jsTrim (jsToLower s) ∈ VALID_API_NAMES) :
    validateApiName s = Except.ok (jsTrim (jsToLower s)) := by
  unfold validateApiName
  rw [if_pos]
  exact List.elem_eq_true_of_mem h

/-- Every valid category name is a key of the functions.ts API_CLASS_MAP. -/
theorem valid_name_in_functions_map (s : String) (h : s ∈ VALID_API_NAMES) :
    s ∈ FUNCTIONS_API_CLASS_NAMES := by
  fin_cases h <;> decide

/-- A units lookup that reaches the fetch issues exactly one remote
getUnits call, whatever the remote outcome. -/
theorem handleUnits_remote_calls (env : UnitsEnv) (apiName ty addr : String)
    (hlog : env.loggedIn = true)
    (hvalid : jsTrim (jsToLower apiName) ∈ VALID_API_NAMES)
    (ht : jsTrim ty ≠ "") :
    (handleUnitsFunction env apiName ty addr).2.filter isRemoteUnitsCall =
      [Event.remoteGetUnits (jsTrim (jsToLower apiName)) (jsTrim ty)] := by
  have hc := valid_name_in_functions_map (jsTrim (jsToLower apiName)) hvalid
  have hv := validateApiName_ok_of_mem apiName hvalid
  cases hr : env.unitsResponse (jsTrim (jsToLower apiName)) (jsTrim ty) with
  | error msg =>
    simp [handleUnitsFunction, fetchUnits, ht, hlog, hv, hc, hr, isRemoteUnitsCall]
  | ok resp =>
    cases resp with
    | none =>
      simp [handleUnitsFunction, fetchUnits, ht, hlog, hv, hc, hr, isRemoteUnitsCall]
    | some units =>
      by_cases hu : units.isEmpty <;>
        simp [handleUnitsFunction, fetchUnits, ht, hlog, hv, hc, hr, hu, isRemoteUnitsCall]

/-- C8: the units lookup is uncached — no invocation of
handleUnitsFunction ever reads or writes a hidden dataset, and two
consecutive calls with different type values issue two independent remote
getUnits calls. -/
theorem handleUnits_uncached (env : UnitsEnv) (apiName ty1 ty2 addr1 addr2 : String)
    (hlog : env.loggedIn = true)
    (hvalid : jsTrim (jsToLower apiName) ∈ VALID_API_NAMES)
    (h1 : jsTrim ty1 ≠ "") (h2 : jsTrim ty2 ≠ "") :
    (∀ a t c, (handleUnitsFunction env a t c).2.filter touchesSheetStore = []) ∧
    ((handleUnitsFunction env apiName ty1 addr1).2 ++
      (handleUnitsFunction env apiName ty2 addr2).2).filter isRemoteUnitsCall =
      [Event.remoteGetUnits (jsTrim (jsToLower apiName)) (jsTrim ty1),
       Event.remoteGetUnits (jsTrim (jsToLower apiName)) (jsTrim ty2)] := by
  constructor
  · intro a t c
    by_cases htt : jsTrim t = ""
    · simp [handleUnitsFunction, htt]
    · by_cases hl : env.loggedIn
      · cases hv : validateApiName a with
        | error e => simp [handleUnitsFunction, htt, hl, hv, touchesSheetStore]
        | ok n =>
          by_cases hcn : n ∈ FUNCTIONS_API_CLASS_NAMES
          · cases hr : env.unitsResponse n (jsTrim t) with
            | error msg =>
              simp [handleUnitsFunction, fetchUnits, htt, hl, hv, hcn, hr, touchesSheetStore]
            | ok resp =>
              cases resp with
              | none =>
                simp [handleUnitsFunction, fetchUnits, htt, hl, hv, hcn, hr,
                  touchesSheetStore]
              | some units =>
                by_cases hu : units.isEmpty <;>
                  simp [handleUnitsFunction, fetchUnits, htt, hl, hv, hcn, hr, hu,
                    touchesSheetStore]
          · simp [handleUnitsFunction, fetchUnits, htt, hl, hv, hcn, touchesSheetStore]
      · simp [handleUnitsFunction, htt, hl, touchesSheetStore]
  · rw [List.filter_append, handleUnits_remote_calls env apiName ty1 addr1 hlog hvalid h1,
      handleUnits_remote_calls env apiName ty2 addr2 hlog hvalid h2]
    rfl

/-- A units environment in which every remote getUnits call succeeds with
a single unit. -/
def unitsEnvOk : UnitsEnv :=
  { loggedIn := true, unitsResponse := fun _ _ => Except.ok (some ["kg"]) }

/-- C8 witness: two consecutive units lookups with types t1 and t2 touch
no hidden dataset and issue exactly two remote getUnits calls. -/
theorem handleUnits_uncached_witness :
    (handleUnitsFunction unitsEnvOk "mobile" "t1" "A1").2.filter touchesSheetStore = [] ∧
    ((handleUnitsFunction unitsEnvOk "mobile" "t1" "A1").2 ++
      (handleUnitsFunction unitsEnvOk "mobile" "t2" "A2").2).filter isRemoteUnitsCall =
      [Event.remoteGetUnits "mobile" "t1", Event.remoteGetUnits "mobile" "t2"] := by
  obtain ⟨hall, htwo⟩ :=
    handleUnits_uncached unitsEnvOk "mobile" "t1" "t2" "A1" "A2" rfl (by decide)
      (by decide) (by decide)
  exact ⟨hall "mobile" "t1" "A1", htwo⟩

/-- Recognizer for validation-rule attachments to a cell. -/
def isApplyValidationEvent : Event → Bool
  | Event.applyValidation _ _ => true
  | _ => false

/-- C9: when the power-grid lookup reaches a present, fresh dataset and
derives an empty option list (empty recorded power-grid string, or no
matching (group, country) row), the handler fails with notAvailable naming
the country and attaches no validation rule to the cell. -/
theorem handlePowerGrid_empty_notAvailable
    (env : AreaEnv) (now : Int) (sh : AreaSheet) (apiName country addr : String)
    (n : String)
    (hc : jsTrim country ≠ "")
    (hl : env.loggedIn = true)
    (hv : validateApiName apiName = Except.ok n)
    (hfresh : isSheetDataStale now (Except.ok sh.metadataRow) = false)
    (hempty : getAreaDataForCountry sh.values n (jsToUpper (jsTrim country))
      AREA_COLUMN_MAP.powerGrid = []) :
    (handlePowerGridFunction env now (some sh) apiName country addr).1 =
      Except.error
        { code := ErrCode.notAvailable,
          message := "No power grid data available for " ++ country } ∧
    (handlePowerGridFunction env now (some sh) apiName country addr).2.2.filter
      isApplyValidationEvent = [] := by
  unfold handlePowerGridFunction handleAreaColumnFunction
  simp [refreshSheetIfStale, ensureAreaDataSheet, finishAreaHandler,
    handleCustomFunctionError, hc, hl, hv, hfresh, hempty, isApplyValidationEvent]

/-- An area environment with a live session (the populate path is unused
in the C9 witness because the sheet is present and fresh). -/
def areaEnvLive : AreaEnv :=
  { loggedIn := true, populateResult := Except.error "unused" }

/-- A fresh area sheet (written at time 0) holding one mobile row for USA
whose power-grid cell is the empty string. -/
def sheetEmptyPowerGrid : AreaSheet :=
  { metadataRow := { cell0 := CellVal.str "METADATA", cell1 := CellVal.str "0" },
    values :=
      [["METADATA", "0"],
       ["API Name", "Alpha3", "Country Name", "State/Province", "Power Grid"],
       ["mobile", "USA", "United States", "California", ""]] }

/-- C9 witness: on the fresh sheet whose USA row records no power grid,
the power-grid lookup for (mobile, usa) at time 0 fails with notAvailable
and attaches nothing. -/
theorem handlePowerGrid_empty_notAvailable_witness :
    (handlePowerGridFunction areaEnvLive 0 (some sheetEmptyPowerGrid)
        "mobile" "usa" "A1").1 =
      Except.error
        { code := ErrCode.notAvailable,
          message := "No power grid data available for usa" } ∧
    (handlePowerGridFunction areaEnvLive 0 (some sheetEmptyPowerGrid)
        "mobile" "usa" "A1").2.2.filter isApplyValidationEvent = [] :=
  handlePowerGrid_empty_notAvailable areaEnvLive 0 sheetEmptyPowerGrid
    "mobile" "usa" "A1" "mobile" (by decide) rfl rfl rfl rfl

/-- C10: for the state/province and power-grid handlers (country
parameter) and the units handler (type parameter), an empty or
whitespace-only required parameter yields the invalidValue error with an
empty trace — no session check, no remote call and no cache access — for
every environment, in particular an unauthenticated one, and the cache
state is left untouched. -/
theorem required_param_checked_before_session
    (env : AreaEnv) (uenv : UnitsEnv) (now : Int) (st : AreaState)
    (apiName country ty addrA addrU : String)
    (hc : jsTrim country = "") (ht : jsTrim ty = "") :
    handleStateProvinceFunction env now st apiName country addrA =
      (Except.error
        { code := ErrCode.invalidValue,
          message := "Country parameter is required and must be a non-empty string" },
       st, []) ∧
    handlePowerGridFunction env now st apiName country addrA =
      (Except.error
        { code := ErrCode.invalidValue,
          message := "Country parameter is required and must be a non-empty string" },
       st, []) ∧
    handleUnitsFunction uenv apiName ty addrU =
      (Except.error
        { code := ErrCode.invalidValue,
          message := "Type parameter is required and must be a non-empty string" },
       []) := by
  refine ⟨?_, ?_, ?_⟩ <;>
    simp [handleStateProvinceFunction, handlePowerGridFunction,
      handleAreaColumnFunction, handleUnitsFunction, hc, ht]

/-- C10 witness: with no session at all (logged out, failing populate and
failing remote), a whitespace-only country and an empty type still produce
invalidValue with an empty trace on all three handlers. -/
theorem required_param_checked_before_session_witness :
    handleStateProvinceFunction
        { loggedIn := false, populateResult := Except.error "offline" } 0 none
        "mobile" "   " "A1" =
      (Except.error
        { code := ErrCode.invalidValue,
          message := "Country parameter is required and must be a non-empty string" },
       none, []) ∧
    handlePowerGridFunction
        { loggedIn := false, populateResult := Except.error "offline" } 0 none
        "mobile" "   " "A1" =
      (Except.error
        { code := ErrCode.invalidValue,
          message := "Country parameter is required and must be a non-empty string" },
       none, []) ∧
    handleUnitsFunction
        { loggedIn := false, unitsResponse := fun _ _ => Except.error "offline" }
        "mobile" "" "A1" =
      (Except.error
        { code := ErrCode.invalidValue,
          message := "Type parameter is required and must be a non-empty string" },
       []) :=
  required_param_checked_before_session
    { loggedIn := false, populateResult := Except.error "offline" }
    { loggedIn := false, unitsResponse := fun _ _ => Except.error "offline" }
    0 none "mobile" "   " "" "A1" "A1" (by decide) (by decide)
